import Mathlib

/-!
Shallow embedding of the CasperLabs execution engine, centred on
`execution-engine/engine-core/src/engine_state/mod.rs` (the deploy pipeline
and the chainspec genesis installer).  External crates (`contract_ffi`,
`engine_storage`, the wasm executor, `execution_result.rs`) are modelled
either by oracle functions carried in an environment record or, where a
claim depends on their behaviour, by definitions taken from the
specification (marked `Modelled from the spec:`).
-/

namespace CasperLabs

/-- Byte strings: each entry stands for one byte. -/
abbrev Bytes := List Nat

/-- 32-byte addresses (account addresses, hash digests, URef addresses). -/
abbrev Addr := List Nat

/-- Access-rights bitmask over READ / WRITE / ADD
(`contract_ffi::uref::AccessRights`). -/
structure AccessRights where
  read : Bool
  write : Bool
  addBit : Bool
deriving DecidableEq, Repr

def AccessRights.READ : AccessRights := ⟨true, false, false⟩

def AccessRights.READ_ADD_WRITE : AccessRights := ⟨true, true, true⟩

/-- Unforgeable reference (`contract_ffi::uref::URef`): 32-byte address plus
optional access rights. -/
structure URefV where
  addr : Addr
  accessRights : Option AccessRights
deriving DecidableEq, Repr

/-- `URef::is_readable`: rights are present and carry the READ bit. -/
def URefV.is_readable (u : URefV) : Bool :=
  match u.accessRights with
  | some r => r.read
  | none => false

/-- `contract_ffi::key::Key`: tagged identifier over the global state. -/
inductive Key where
  | account (addr : Addr)
  | hash (h : Addr)
  | uref (u : URefV)
deriving DecidableEq, Repr

/-- `Key::normalize`: erase access rights on URef keys. -/
def Key.normalize : Key → Key
  | .uref u => .uref ⟨u.addr, none⟩
  | k => k

/-- `Key::as_account`: the address when the key is an Account variant. -/
def Key.as_account : Key → Option Addr
  | .account a => some a
  | _ => none

/-- Modelled from the spec: `Account` from `contract_ffi` (not under `src/`).
Spec §3: address, associated keys with weights, main purse, known keys,
action thresholds. -/
structure Account where
  address : Addr
  associatedKeys : List (Addr × Nat)
  mainPurse : URefV
  knownKeys : List (String × Key)
  deploymentThreshold : Nat
  keyManagementThreshold : Nat
deriving DecidableEq, Repr

/-- `Account::urefs_lookup().get(name)`: look a name up in the known keys. -/
def Account.urefs_lookup (a : Account) (name : String) : Option Key :=
  (a.knownKeys.lookup name)

/-- Modelled from the spec: `Account::can_authorize` — every supplied
authorization key is associated with the account. -/
def Account.can_authorize (a : Account) (keys : List Addr) : Bool :=
  keys.all (fun k => a.associatedKeys.any (fun p => p.1 == k))

/-- Modelled from the spec: `Account::can_deploy_with` — the summed weights of
the supplied keys reach the deployment threshold. -/
def Account.can_deploy_with (a : Account) (keys : List Addr) : Bool :=
  decide (a.deploymentThreshold ≤ (keys.map (fun k => ((a.associatedKeys.lookup k).getD 0))).sum)

/-- Values held in the global state (only the variants the pipeline needs;
other variants are collapsed into an opaque payload). -/
inductive Value where
  | account (a : Account)
  | uref (u : URefV)
  | uint512 (n : Nat)
  | other (n : Nat)
deriving DecidableEq, Repr

/-- Name of a value's variant, as used in `TypeMismatch` errors. -/
def Value.type_string : Value → String
  | .account _ => "Account"
  | .uref _ => "URef"
  | .uint512 _ => "U512"
  | .other _ => "Other"

/-- `TryInto<URef> for Value`: succeeds exactly on the URef variant. -/
def Value.asURef : Value → Option URefV
  | .uref u => some u
  | _ => none

/-- `engine_shared::transform::Transform` restricted to what the deploy
pipeline produces; the signed `addU512` delta models the spec's
`AddU512(±amount)` notation for balance transfers. -/
inductive Transform where
  | identity
  | write (v : Value)
  | addU512 (delta : Int)
  | failure
deriving DecidableEq, Repr

/-- Reasons `TrackingCopy::get_account` can fail (the deploy code discards the
reason, mapping every failure to `AuthorizationError`). -/
inductive GetAccountError where
  | keyNotFound
  | typeMismatch
  | storageError (n : Nat)
deriving DecidableEq, Repr

/-- Errors surfaced by `execution::Error` (the executor's error type). -/
inductive ExecutionError where
  | deploymentAuthorizationFailure
  | urefNotFound (name : String)
  | forgedReference (u : URefV)
  | keyNotFound (k : Key)
  | typeMismatch (expected found : String)
  | otherExec (n : Nat)
deriving DecidableEq, Repr

/-- `engine_state::error::Error` (variants used by `mod.rs`). -/
inductive Error where
  | authorizationError
  | missingSystemContractError (name : String)
  | insufficientPaymentError
  | deployError
  | invalidHashLength (expected actual : Nat)
  | execError (e : ExecutionError)
  | wasmPreprocessingError (n : Nat)
  | storageError (n : Nat)
  | internalError (msg : String)
deriving DecidableEq, Repr

/-- `ExecutionResult` flattened to the record the spec gives in §6:
transforms, cost, optional error (error present on `Failure`). -/
structure ExecutionResult where
  transforms : List (Key × Transform)
  cost : Nat
  error : Option Error
deriving DecidableEq, Repr

/-- `ExecutionResult::precondition_failure`: a failed result with no effects
and zero cost. -/
def ExecutionResult.precondition_failure (e : Error) : ExecutionResult :=
  { transforms := [], cost := 0, error := some e }

/-- `ExecutionResult::is_failure`. -/
def ExecutionResult.is_failure (r : ExecutionResult) : Bool :=
  r.error.isSome

/-- `contract_ffi::execution::Phase`. -/
inductive Phase where
  | system
  | payment
  | session
  | finalizePayment
deriving DecidableEq, Repr

/-- Arguments passed to an executor invocation: raw deploy-item bytes, or the
parsed finalize tuple (their canonical serialization is external). -/
inductive ExecArgs where
  | bytes (b : Bytes)
  | tuple3 (method : String) (amountMotes : Nat) (caller : Addr)
deriving DecidableEq, Repr

/-- One recorded invocation of the executor (`Executor::exec` or
`Executor::exec_direct`), with the parameters the pipeline passes. -/
structure ExecCall where
  isDirect : Bool
  args : ExecArgs
  baseKey : Key
  callerAddr : Addr
  gasLimit : Nat
  phase : Phase
deriving DecidableEq, Repr

/-- `SystemContractInfo` as returned by
`TrackingCopy::get_system_contract_info`: the inner URef (guaranteed to be a
URef variant), the stored contract's known keys, and its module bytes. -/
structure SystemContractInfo where
  innerKey : URefV
  contractKnownKeys : List (String × Key)
  moduleBytes : Bytes
deriving DecidableEq, Repr

/-- `engine_state::executable_deploy_item::ExecutableDeployItem`. -/
inductive ExecutableDeployItem where
  | moduleBytes (moduleBytes : Bytes) (args : Bytes)
  | storedContractByHash (hash : Bytes) (args : Bytes)
  | storedContractByName (name : String) (args : Bytes)
  | storedContractByURef (uref : Bytes) (args : Bytes)
deriving DecidableEq, Repr

/-- `ExecutableDeployItem::args`. -/
def ExecutableDeployItem.args : ExecutableDeployItem → Bytes
  | .moduleBytes _ a => a
  | .storedContractByHash _ a => a
  | .storedContractByName _ a => a
  | .storedContractByURef _ a => a

/-- `engine_state::engine_config::EngineConfig` (the flag read by `deploy`). -/
structure EngineConfig where
  use_payment_code : Bool
deriving DecidableEq, Repr

-- Constants from `engine_state/mod.rs` lines 46-55.

def MAX_PAYMENT : Nat := 10000000

def CONV_RATE : Nat := 10

def SYSTEM_ACCOUNT_ADDR : Addr := List.replicate 32 0

def DEFAULT_SESSION_MOTES : Nat := 1000000000

def MINT_NAME : String := "mint"

def POS_NAME : String := "pos"

def POS_PAYMENT_PURSE : String := "pos_payment_purse"

def POS_REWARDS_PURSE : String := "pos_rewards_purse"

def U64_MAX : Nat := 2 ^ 64 - 1

/-- `Gas::from_motes(motes, conv_rate).unwrap_or_default()`: checked division;
Lean's natural division already returns 0 on a zero divisor, matching
`unwrap_or_default`. -/
def gasFromMotes (motes conv : Nat) : Nat := motes / conv

/-- Oracle environment standing for the crates the deploy pipeline calls into
but that are outside `engine_state/mod.rs`: the state provider / tracking
copy, the preprocessor and the executor.  Each field answers exactly one kind
of call the pipeline makes. -/
structure DeployEnv where
  checkout : Bytes → Except Error (Option Unit)
  getAccount : Addr → Except GetAccountError Account
  preprocess : Bytes → Except Error Unit
  deserialize : Bytes → Except Error Unit
  getContract : Key → Except Error Bytes
  getSystemContractInfo : Key → Except Error SystemContractInfo
  getPurseBalanceKey : URefV → Key → Except Error Key
  getPurseBalance : Key → Except Error Nat
  exec : ExecCall → ExecutionResult

/-- `EngineState::get_module` (mod.rs lines 507-607): resolve an executable
deploy item to a wasm module (the module itself is abstract, so success is
`Unit`). -/
def get_module (env : DeployEnv) (item : ExecutableDeployItem) (account : Account) :
    Except Error Unit :=
  match item with
  | .moduleBytes mb _ => env.preprocess mb
  | .storedContractByHash h _ =>
      if h.length ≠ 32 then
        .error (.invalidHashLength 32 h.length)
      else do
        let bytes ← env.getContract (Key.hash h)
        env.deserialize bytes
  | .storedContractByName name _ =>
      match account.urefs_lookup name with
      | none => .error (.execError (.urefNotFound name))
      | some storedContractKey =>
          match storedContractKey with
          | .uref u =>
              if ! u.is_readable then
                .error (.execError (.forgedReference u))
              else do
                let bytes ← env.getContract storedContractKey.normalize
                env.deserialize bytes
          | _ => do
              let bytes ← env.getContract storedContractKey.normalize
              env.deserialize bytes
  | .storedContractByURef urefBytes _ =>
      if urefBytes.length ≠ 32 then
        .error (.invalidHashLength 32 urefBytes.length)
      else
        let readOnlyURef : URefV := ⟨urefBytes, some AccessRights.READ⟩
        let normalizedURef : Key := (Key.uref readOnlyURef).normalize
        let maybeKnown : Option Key :=
          (account.knownKeys.map (fun p => p.2)).find?
            (fun knownURef => knownURef.normalize == normalizedURef)
        match maybeKnown with
        | some (.uref knownURef) =>
            if knownURef.is_readable then do
              let bytes ← env.getContract normalizedURef
              env.deserialize bytes
            else
              .error (.execError (.forgedReference readOnlyURef))
        | some k =>
            .error (.execError (.typeMismatch "Key::URef" (toString (repr k))))
        | none =>
            .error (.execError (.keyNotFound (Key.uref readOnlyURef)))

/-- Modelled from the spec: `ExecutionResultBuilder::check_forced_transfer`
(`execution_result.rs`, not under `src/`).  Spec §4.5 step 7: if payment
failed, or the payment-purse balance is below `cost · CONV_RATE`, or below
`MAX_PAYMENT`, produce a result whose only effects are
`AddU512(-MAX_PAYMENT)` on the account's main-purse balance key and
`AddU512(+MAX_PAYMENT)` on the rewards-purse balance key, error flag set,
cost `MAX_PAYMENT`.  (The spec does not name the error kind; only the flag
matters, and `insufficientPaymentError` is used here.) -/
def check_forced_transfer (paymentResult : ExecutionResult)
    (maxPayment accountMainPurseBalance paymentPurseBalance : Nat)
    (accountMainPurseBalanceKey rewardsPurseBalanceKey : Key) :
    Option ExecutionResult :=
  let _ := accountMainPurseBalance
  let cost := paymentResult.cost
  if paymentResult.is_failure
      || decide (paymentPurseBalance < cost * CONV_RATE)
      || decide (paymentPurseBalance < maxPayment) then
    some
      { transforms :=
          [(accountMainPurseBalanceKey, Transform.addU512 (-(maxPayment : Int))),
           (rewardsPurseBalanceKey, Transform.addU512 ((maxPayment : Int)))],
        cost := maxPayment,
        error := some Error.insufficientPaymentError }
  else
    none

/-- Modelled from the spec: `ExecutionResultBuilder::build`
(`execution_result.rs`, not under `src/`).  Spec §4.6 and §7: merge
transforms in order payment, then session when the session succeeded, then
finalize; on session failure the session effects are dropped and the cost is
the payment cost; a finalize failure is surfaced as a precondition
failure. -/
def ExecutionResultBuilder.build
    (paymentR sessionR finalizeR : ExecutionResult) : ExecutionResult :=
  if finalizeR.is_failure then
    ExecutionResult.precondition_failure Error.deployError
  else
    { transforms :=
        paymentR.transforms
          ++ (if sessionR.is_failure then [] else sessionR.transforms)
          ++ finalizeR.transforms,
      cost := paymentR.cost + (if sessionR.is_failure then 0 else sessionR.cost),
      error := if sessionR.is_failure then sessionR.error else none }

/-- Modelled from the spec: `ExecutionResultBuilder::total_cost` — payment
cost plus session cost (used for the finalize arguments). -/
def ExecutionResultBuilder.total_cost (paymentR sessionR : ExecutionResult) : Nat :=
  paymentR.cost + sessionR.cost

/-- Return type of `deploy`: `Result<ExecutionResult, RootNotFound>`. -/
inductive DeployReturn where
  | rootNotFound (h : Bytes)
  | ok (r : ExecutionResult)
deriving DecidableEq, Repr

/-- `EngineState::deploy` (mod.rs lines 609-1051), together with the ordered
log of executor invocations it makes.  Control flow is translated line by
line from the source; external calls are answered by the `DeployEnv`
oracle. -/
def deploy (env : DeployEnv) (config : EngineConfig)
    (session payment : ExecutableDeployItem) (address : Key)
    (authorization_keys : List Addr) (prestate_hash : Bytes) :
    DeployReturn × List ExecCall :=
  -- validation_spec_2: prestate_hash check
  match env.checkout prestate_hash with
  | .error e => (.ok (ExecutionResult.precondition_failure e), [])
  | .ok none => (.rootNotFound prestate_hash, [])
  | .ok (some _) =>
  -- validation_spec_3: account validity
  match address.as_account with
  | none => (.ok (ExecutionResult.precondition_failure Error.authorizationError), [])
  | some account_addr =>
  match env.getAccount account_addr with
  | .error _ => (.ok (ExecutionResult.precondition_failure Error.authorizationError), [])
  | .ok account =>
  if authorization_keys.isEmpty || ! account.can_authorize authorization_keys then
    (.ok (ExecutionResult.precondition_failure Error.authorizationError), [])
  else if ! account.can_deploy_with authorization_keys then
    -- validation_spec_4: deploy validity
    (.ok (ExecutionResult.precondition_failure
      (Error.execError ExecutionError.deploymentAuthorizationFailure)), [])
  else
  -- validation_spec_1: valid wasm bytes (session)
  match get_module env session account with
  | .error e => (.ok (ExecutionResult.precondition_failure e), [])
  | .ok _ =>
  if ! config.use_payment_code then
    -- DEPLOY WITH NO PAYMENT
    let gas_limit := gasFromMotes DEFAULT_SESSION_MOTES CONV_RATE
    let sessionCall : ExecCall :=
      { isDirect := false, args := .bytes session.args, baseKey := address,
        callerAddr := account.address, gasLimit := gas_limit, phase := .session }
    let session_result := env.exec sessionCall
    (.ok session_result, [sessionCall])
  else
  -- payment_code_spec_6: system contract validity (mint)
  match account.urefs_lookup MINT_NAME with
  | none => (.ok (ExecutionResult.precondition_failure
      (Error.missingSystemContractError MINT_NAME)), [])
  | some mintKeyRaw =>
  match env.getSystemContractInfo mintKeyRaw.normalize with
  | .error e => (.ok (ExecutionResult.precondition_failure e), [])
  | .ok mint_info =>
  let mint_inner_uref := mint_info.innerKey
  -- payment_code_spec_6: system contract validity (proof of stake)
  match account.urefs_lookup POS_NAME with
  | none => (.ok (ExecutionResult.precondition_failure
      (Error.missingSystemContractError POS_NAME)), [])
  | some posKeyRaw =>
  let proof_of_stake_public_uref := posKeyRaw.normalize
  match env.getSystemContractInfo proof_of_stake_public_uref with
  | .error e => (.ok (ExecutionResult.precondition_failure e), [])
  | .ok proof_of_stake_info =>
  -- rewards purse balance key
  match proof_of_stake_info.contractKnownKeys.lookup POS_REWARDS_PURSE with
  | none => (.ok (ExecutionResult.precondition_failure Error.deployError), [])
  | some rewards_purse_key =>
  match env.getPurseBalanceKey mint_inner_uref rewards_purse_key with
  | .error e => (.ok (ExecutionResult.precondition_failure e), [])
  | .ok rewards_purse_balance_key =>
  -- account main purse balance key
  match env.getPurseBalanceKey mint_inner_uref (Key.uref account.mainPurse) with
  | .error e => (.ok (ExecutionResult.precondition_failure e), [])
  | .ok account_main_purse_balance_key =>
  match env.getPurseBalance account_main_purse_balance_key with
  | .error e => (.ok (ExecutionResult.precondition_failure e), [])
  | .ok account_main_purse_balance =>
  -- validation_spec_5: account main purse minimum balance
  if account_main_purse_balance < MAX_PAYMENT then
    (.ok (ExecutionResult.precondition_failure Error.insufficientPaymentError), [])
  else
  -- validation_spec_1: valid wasm bytes (payment)
  match get_module env payment account with
  | .error e => (.ok (ExecutionResult.precondition_failure e), [])
  | .ok _ =>
  -- payment_code_spec_1 / payment_code_spec_2: execute payment code
  let pay_gas_limit := gasFromMotes MAX_PAYMENT CONV_RATE
  let paymentCall : ExecCall :=
    { isDirect := false, args := .bytes payment.args, baseKey := address,
      callerAddr := account.address, gasLimit := pay_gas_limit, phase := .payment }
  let payment_result := env.exec paymentCall
  let payment_result_cost := payment_result.cost
  -- payment_code_spec_3: read the PoS payment purse balance
  match proof_of_stake_info.contractKnownKeys.lookup POS_PAYMENT_PURSE with
  | none => (.ok (ExecutionResult.precondition_failure Error.deployError), [paymentCall])
  | some payment_purse_key =>
  match env.getPurseBalanceKey mint_inner_uref payment_purse_key with
  | .error e => (.ok (ExecutionResult.precondition_failure e), [paymentCall])
  | .ok payment_purse_balance_key =>
  match env.getPurseBalance payment_purse_balance_key with
  | .error e => (.ok (ExecutionResult.precondition_failure e), [paymentCall])
  | .ok payment_purse_balance =>
  match check_forced_transfer payment_result MAX_PAYMENT
      account_main_purse_balance payment_purse_balance
      account_main_purse_balance_key rewards_purse_balance_key with
  | some failure => (.ok failure, [paymentCall])
  | none =>
  -- session_code_spec_1 / session_code_spec_2: session on a fork
  let session_gas_limit := gasFromMotes payment_purse_balance CONV_RATE - payment_result_cost
  let sessionCall : ExecCall :=
    { isDirect := false, args := .bytes session.args, baseKey := address,
      callerAddr := account.address, gasLimit := session_gas_limit, phase := .session }
  let session_result := env.exec sessionCall
  -- payment_code_spec_5: run finalize process
  match env.deserialize proof_of_stake_info.moduleBytes with
  | .error e => (.ok (ExecutionResult.precondition_failure e), [paymentCall, sessionCall])
  | .ok _ =>
  let finalize_cost_motes :=
    ExecutionResultBuilder.total_cost payment_result session_result * CONV_RATE
  let finalizeCall : ExecCall :=
    { isDirect := true,
      args := .tuple3 "finalize_payment" finalize_cost_motes account_addr,
      baseKey := Key.uref proof_of_stake_info.innerKey,
      callerAddr := SYSTEM_ACCOUNT_ADDR, gasLimit := U64_MAX,
      phase := .finalizePayment }
  let finalize_result := env.exec finalizeCall
  let ret := ExecutionResultBuilder.build payment_result session_result finalize_result
  (.ok ret, [paymentCall, sessionCall, finalizeCall])

-- Genesis installation (`EngineState::commit_genesis_with_chainspec`,
-- mod.rs lines 115-424).

def MINT_METHOD_NAME : String := "mint"

/-- Little-endian byte encoding of a `u64` (`u64::to_le_bytes`). -/
def u64ToLeBytes (n : Nat) : Bytes :=
  (List.range 8).map (fun i => n / 256 ^ i % 256)

/-- Bytes of a string (`str::as_bytes`); chainspec names are ASCII so
codepoints stand for bytes. -/
def stringBytes (s : String) : Bytes :=
  s.data.map Char.toNat

/-- Modelled from the spec: `Account::create` from contract_ffi — a fresh
account with the given known keys and main purse; its own address is its
associated key and the action thresholds are at their defaults. -/
def Account.create (addr : Addr) (knownKeys : List (String × Key)) (purse : URefV) :
    Account :=
  { address := addr, associatedKeys := [(addr, 1)], mainPurse := purse,
    knownKeys := knownKeys, deploymentThreshold := 1, keyManagementThreshold := 1 }

/-- One account of the chainspec (`genesis::GenesisAccount`): public key,
initial balance in motes, bonded amount in motes. -/
structure GenesisAccount where
  publicKey : Addr
  balance : Nat
  bondedAmount : Nat
deriving DecidableEq, Repr

/-- `genesis::GenesisConfig`: the wasm costs appear through their canonical
serialization (`WasmCosts::to_bytes`), which is external to `src/`. -/
structure GenesisConfig where
  name : String
  timestamp : Nat
  protocolVersion : Nat
  wasmCostsBytes : Bytes
  mintInstallerBytes : Bytes
  posInstallerBytes : Bytes
  accounts : List GenesisAccount
deriving DecidableEq, Repr

/-- Modelled from the spec: `GenesisConfig::get_bonded_validators` — the
accounts filtered to non-zero bonded amounts (spec §4.7 step 6). -/
def GenesisConfig.get_bonded_validators (c : GenesisConfig) : List (Addr × Nat) :=
  (c.accounts.filter (fun a => a.bondedAmount != 0)).map
    (fun a => (a.publicKey, a.bondedAmount))

/-- Arguments of a genesis-time `better_exec` invocation (serialization via
`ArgsParser` is external, so the parsed shapes are kept). -/
inductive GenesisArgs where
  | empty
  | posInstall (mint : URefV) (bondedValidators : List (Addr × Nat))
  | mintCall (method : String) (amountMotes : Nat)
deriving DecidableEq, Repr

/-- One recorded invocation of `Executor::better_exec` during genesis. -/
structure GenesisExecCall where
  moduleBytes : Bytes
  args : GenesisArgs
  baseKey : Key
  deployHash : Bytes
  gasLimit : Nat
  phase : Phase
deriving DecidableEq, Repr

/-- `engine_storage::global_state::CommitResult`. -/
inductive CommitResult where
  | success (newRoot : Bytes)
  | keyNotFound (k : Key)
  | typeMismatch
  | rootNotFound
deriving DecidableEq, Repr

/-- `genesis::GenesisResult`. -/
inductive GenesisResult where
  | rootNotFound
  | keyNotFound (k : Key)
  | typeMismatch
  | success (postStateHash : Bytes) (effect : List (Key × Transform))
deriving DecidableEq, Repr

/-- Modelled from the spec: `GenesisResult::from_commit_result`
(`genesis.rs`, not under `src/`) — a successful commit carries the new root
and the effects, failures carry over. -/
def GenesisResult.from_commit_result :
    CommitResult → List (Key × Transform) → GenesisResult
  | .success root, eff => .success root eff
  | .keyNotFound k, _ => .keyNotFound k
  | .typeMismatch, _ => .typeMismatch
  | .rootNotFound, _ => .rootNotFound

/-- Oracle environment for the genesis installer: hashing, the state
provider, the preprocessor and the genesis executor. -/
structure GenesisEnv where
  blake2b : Bytes → Bytes
  emptyRoot : Bytes
  putProtocolData : Nat → Bytes → Except Error Unit
  checkout : Bytes → Except Error (Option Unit)
  preprocess : Bytes → Except Error Unit
  deserialize : Bytes → Except Error Unit
  getContract : Key → Except Error Bytes
  better_exec : GenesisExecCall → Except Error (Value × List (Key × Transform))
  commit : Bytes → List (Key × Transform) → Except Error CommitResult

/-- The install deploy hash (mod.rs lines 174-186): Blake2b of the config
name bytes, the little-endian timestamp and the serialized wasm costs. -/
def install_deploy_hash (env : GenesisEnv) (genesis_config : GenesisConfig) : Bytes :=
  env.blake2b
    (stringBytes genesis_config.name
      ++ u64ToLeBytes genesis_config.timestamp
      ++ genesis_config.wasmCostsBytes)

/-- `EngineState::commit_genesis_with_chainspec` (mod.rs lines 115-424).
The tracking copy is modelled as the journal of transforms it accumulates;
panics in the source (uninitialized state, args that fail to serialize)
appear as `internalError`. -/
def commit_genesis_with_chainspec (env : GenesisEnv)
    (genesis_config : GenesisConfig) : Except Error GenesisResult := do
  let gas_limit := U64_MAX
  let phase := Phase.system
  let initial_base_key := Key.account SYSTEM_ACCOUNT_ADDR
  let initial_root_hash := env.emptyRoot
  let protocol_version := genesis_config.protocolVersion
  -- Spec #2: associate the cost table with the protocol version.
  let _ ← env.putProtocolData protocol_version genesis_config.wasmCostsBytes
  -- Spec #3: create the "virtual system account" object.
  let virtual_system_account :=
    Account.create SYSTEM_ACCOUNT_ADDR []
      ⟨List.replicate 32 0, some AccessRights.READ_ADD_WRITE⟩
  -- Spec #4: create a runtime over the empty root.
  match ← env.checkout initial_root_hash with
  | none => throw (Error.internalError "state has not been initialized properly")
  | some _ =>
  -- Persist the virtual system account.
  let mut transforms : List (Key × Transform) :=
    [(Key.account SYSTEM_ACCOUNT_ADDR, Transform.write (Value.account virtual_system_account))]
  -- Spec #4A: the install deploy hash seeds the address generator.
  let ideploy_hash := install_deploy_hash env genesis_config
  -- Spec #5: execute the mint installer.
  let _ ← env.preprocess genesis_config.mintInstallerBytes
  let mintInstallCall : GenesisExecCall :=
    { moduleBytes := genesis_config.mintInstallerBytes, args := .empty,
      baseKey := initial_base_key, deployHash := ideploy_hash,
      gasLimit := gas_limit, phase := phase }
  let (mintValue, mintTransforms) ← env.better_exec mintInstallCall
  let mint_reference ←
    match mintValue.asURef with
    | some u => pure u
    | none => throw (Error.execError (.typeMismatch "URef" mintValue.type_string))
  transforms := transforms ++ mintTransforms
  -- Spec #6, #7: execute the PoS installer with the bonded validators.
  let _ ← env.preprocess genesis_config.posInstallerBytes
  let bonded_validators := genesis_config.get_bonded_validators
  let posInstallCall : GenesisExecCall :=
    { moduleBytes := genesis_config.posInstallerBytes,
      args := .posInstall mint_reference bonded_validators,
      baseKey := initial_base_key, deployHash := ideploy_hash,
      gasLimit := gas_limit, phase := phase }
  let (posValue, posTransforms) ← env.better_exec posInstallCall
  let proof_of_stake_reference ←
    match posValue.asURef with
    | some u => pure u
    | none => throw (Error.execError (.typeMismatch "URef" posValue.type_string))
  transforms := transforms ++ posTransforms
  -- Known keys for chainspec accounts (attenuated) and the system account.
  let account_known_keys : List (String × Key) :=
    [(MINT_NAME, Key.uref ⟨mint_reference.addr, some AccessRights.READ⟩),
     (POS_NAME, Key.uref ⟨proof_of_stake_reference.addr, some AccessRights.READ⟩)]
  let system_account_known_keys : List (String × Key) :=
    [(MINT_NAME, Key.uref mint_reference),
     (POS_NAME, Key.uref proof_of_stake_reference)]
  -- Collect chainspec accounts plus the zero-balance system account.
  let accounts : List (GenesisAccount × List (String × Key)) :=
    genesis_config.accounts.map (fun a => (a, account_known_keys))
      ++ [(⟨SYSTEM_ACCOUNT_ADDR, 0, 0⟩, system_account_known_keys)]
  -- Get the mint module.
  let contractBytes ← env.getContract (Key.uref mint_reference).normalize
  let _ ← env.deserialize contractBytes
  -- For each account, mint its main purse and write the account.
  for accountEntry in accounts do
    let account := accountEntry.1
    let known_keys := accountEntry.2
    let purse_creation_deploy_hash := account.publicKey
    let mintEndpointCall : GenesisExecCall :=
      { moduleBytes := contractBytes,
        args := .mintCall MINT_METHOD_NAME account.balance,
        baseKey := Key.uref mint_reference,
        deployHash := purse_creation_deploy_hash,
        gasLimit := gas_limit, phase := phase }
    let (mintResultValue, mintCallTransforms) ← env.better_exec mintEndpointCall
    let account_main_purse ←
      match mintResultValue.asURef with
      | some u => pure u
      | none =>
          throw (Error.execError (.typeMismatch "URef" mintResultValue.type_string))
    transforms := transforms ++ mintCallTransforms
      ++ [(Key.account account.publicKey,
           Transform.write (Value.account
             (Account.create account.publicKey known_keys account_main_purse)))]
  -- Spec #15: commit the transforms against the empty root.
  let effects := transforms
  let commit_result ← env.commit initial_root_hash effects
  pure (GenesisResult.from_commit_result commit_result effects)

-- Concrete fixtures used to instantiate the theorems below on executable
-- inputs.

/-- A 32-byte address with every byte equal to `b`. -/
def r32 (b : Nat) : Addr := List.replicate 32 b

def testMainPurse : URefV := ⟨r32 9, some AccessRights.READ_ADD_WRITE⟩

def testAccount : Account :=
  { address := r32 1, associatedKeys := [(r32 1, 1)], mainPurse := testMainPurse,
    knownKeys := [(MINT_NAME, Key.uref ⟨r32 2, some AccessRights.READ⟩),
                  (POS_NAME, Key.uref ⟨r32 3, some AccessRights.READ⟩)],
    deploymentThreshold := 1, keyManagementThreshold := 1 }

def testMintInfo : SystemContractInfo :=
  ⟨⟨r32 4, some AccessRights.READ_ADD_WRITE⟩, [], []⟩

def testPosInfo : SystemContractInfo :=
  ⟨⟨r32 5, some AccessRights.READ_ADD_WRITE⟩,
   [(POS_PAYMENT_PURSE, Key.uref ⟨r32 6, none⟩),
    (POS_REWARDS_PURSE, Key.uref ⟨r32 7, none⟩)],
   [9]⟩

def testAccountBalanceKey : Key := Key.hash (r32 15)

def testPaymentBalanceKey : Key := Key.hash (r32 16)

def testRewardsBalanceKey : Key := Key.hash (r32 17)

/-- An execution result with no effects, zero cost and no error. -/
def emptyOkResult : ExecutionResult := ⟨[], 0, none⟩

/-- A deploy environment over the fixtures: balances and per-phase executor
results are parameters. -/
def testEnv (accountBalance paymentPurseBalance : Nat)
    (paymentResult sessionResult finalizeResult : ExecutionResult) : DeployEnv :=
  { checkout := fun _ => .ok (some ()),
    getAccount := fun _ => .ok testAccount,
    preprocess := fun _ => .ok (),
    deserialize := fun _ => .ok (),
    getContract := fun _ => .ok [],
    getSystemContractInfo := fun k =>
      if k = Key.uref ⟨r32 2, none⟩ then .ok testMintInfo
      else if k = Key.uref ⟨r32 3, none⟩ then .ok testPosInfo
      else .error Error.deployError,
    getPurseBalanceKey := fun _ k =>
      if k = Key.uref ⟨r32 7, none⟩ then .ok testRewardsBalanceKey
      else if k = Key.uref testMainPurse then .ok testAccountBalanceKey
      else if k = Key.uref ⟨r32 6, none⟩ then .ok testPaymentBalanceKey
      else .error Error.deployError,
    getPurseBalance := fun k =>
      if k = testAccountBalanceKey then .ok accountBalance
      else if k = testPaymentBalanceKey then .ok paymentPurseBalance
      else .error Error.deployError,
    exec := fun c =>
      match c.phase with
      | .payment => paymentResult
      | .session => sessionResult
      | .finalizePayment => finalizeResult
      | .system => ExecutionResult.precondition_failure Error.deployError }

def testSession : ExecutableDeployItem := .moduleBytes [1] [10]

def testPayment : ExecutableDeployItem := .moduleBytes [2] [20]

def testEnvNoRoot : DeployEnv :=
  { testEnv 0 0 emptyOkResult emptyOkResult emptyOkResult with
    checkout := fun _ => .ok none }

def testEnvNoAccount : DeployEnv :=
  { testEnv 0 0 emptyOkResult emptyOkResult emptyOkResult with
    getAccount := fun _ => .error GetAccountError.keyNotFound }

def testAccountThreshold2 : Account := { testAccount with deploymentThreshold := 2 }

def testEnvThreshold2 : DeployEnv :=
  { testEnv 0 0 emptyOkResult emptyOkResult emptyOkResult with
    getAccount := fun _ => .ok testAccountThreshold2 }

-- Theorems settling the claims.

/-- C8: if the state provider's checkout of the pre-state root returns no
reader, `deploy` returns the dedicated `rootNotFound` value of the `Result`
type, which is distinct from every `Ok` execution result (in particular from
every precondition failure). -/
theorem deploy_unknown_root_returns_RootNotFound
    (env : DeployEnv) (config : EngineConfig)
    (session payment : ExecutableDeployItem) (address : Key)
    (keys : List Addr) (ph : Bytes)
    (h : env.checkout ph = .ok none) :
    (deploy env config session payment address keys ph).1 = .rootNotFound ph
      ∧ ∀ r : ExecutionResult,
          (deploy env config session payment address keys ph).1 ≠ .ok r := by
  simp [deploy, h]

/-- Witness for C8 on a concrete environment whose checkout knows no root. -/
theorem deploy_unknown_root_returns_RootNotFound_witness :
    (deploy testEnvNoRoot ⟨true⟩ testSession testPayment
        (Key.account (r32 1)) [r32 1] []).1 = .rootNotFound []
      ∧ ∀ r : ExecutionResult,
          (deploy testEnvNoRoot ⟨true⟩ testSession testPayment
              (Key.account (r32 1)) [r32 1] []).1 ≠ .ok r :=
  deploy_unknown_root_returns_RootNotFound testEnvNoRoot ⟨true⟩ testSession
    testPayment (Key.account (r32 1)) [r32 1] [] rfl

/-- C10: when the address key is not an `Account` variant, or the account
cannot be loaded for any reason at all, `deploy` returns a precondition
failure whose error kind is exactly `AuthorizationError` (the underlying
cause is dropped), with no executor invocation. -/
theorem deploy_account_load_failure_gives_AuthorizationError
    (env : DeployEnv) (config : EngineConfig)
    (session payment : ExecutableDeployItem) (address : Key)
    (keys : List Addr) (ph : Bytes)
    (hc : env.checkout ph = .ok (some ()))
    (h : address.as_account = none
        ∨ ∃ a e, address.as_account = some a ∧ env.getAccount a = .error e) :
    deploy env config session payment address keys ph
      = (.ok (ExecutionResult.precondition_failure Error.authorizationError), []) := by
  rcases h with h | ⟨a, e, ha, he⟩
  · simp [deploy, hc, h]
  · simp [deploy, hc, ha, he]

/-- Witness for C10: an environment whose account lookup fails with
`KeyNotFound` still surfaces `AuthorizationError`. -/
theorem deploy_account_load_failure_gives_AuthorizationError_witness :
    deploy testEnvNoAccount ⟨true⟩ testSession testPayment
        (Key.account (r32 1)) [r32 1] []
      = (.ok (ExecutionResult.precondition_failure Error.authorizationError), []) :=
  deploy_account_load_failure_gives_AuthorizationError testEnvNoAccount ⟨true⟩
    testSession testPayment (Key.account (r32 1)) [r32 1] [] rfl
    (Or.inr ⟨r32 1, GetAccountError.keyNotFound, rfl, rfl⟩)

/-- C3 counterexample: with an account whose deployment threshold is 2 and a
single authorized key of weight 1 (so `can_authorize` holds but
`can_deploy_with` fails), `deploy` returns `DeploymentAuthorizationFailure`,
not `AuthorizationError` as the claim states. -/
theorem deploy_can_deploy_with_failure_is_not_AuthorizationError :
    ((deploy testEnvThreshold2 ⟨true⟩ testSession testPayment
        (Key.account (r32 1)) [r32 1] []).1
      = .ok (ExecutionResult.precondition_failure
          (Error.execError ExecutionError.deploymentAuthorizationFailure)))
    ∧ ((deploy testEnvThreshold2 ⟨true⟩ testSession testPayment
          (Key.account (r32 1)) [r32 1] []).1
        ≠ .ok (ExecutionResult.precondition_failure Error.authorizationError)) := by
  decide

/-- C3 (amended): empty authorization keys or a failing `can_authorize` give
a precondition failure with `AuthorizationError`; a failing
`can_deploy_with` gives a precondition failure with
`DeploymentAuthorizationFailure`; in all cases no payment or session code is
executed. -/
theorem deploy_authorization_failures
    (env : DeployEnv) (config : EngineConfig)
    (session payment : ExecutableDeployItem) (address : Key)
    (keys : List Addr) (ph : Bytes) (a : Addr) (account : Account)
    (hc : env.checkout ph = .ok (some ()))
    (ha : address.as_account = some a)
    (hacc : env.getAccount a = .ok account) :
    ((keys.isEmpty || ! account.can_authorize keys) = true →
      deploy env config session payment address keys ph
        = (.ok (ExecutionResult.precondition_failure Error.authorizationError), []))
    ∧ (keys.isEmpty = false → account.can_authorize keys = true →
        account.can_deploy_with keys = false →
        deploy env config session payment address keys ph
          = (.ok (ExecutionResult.precondition_failure
              (Error.execError ExecutionError.deploymentAuthorizationFailure)), [])) := by
  constructor
  · intro h
    simp [deploy, hc, ha, hacc, h]
  · intro h1 h2 h3
    simp [deploy, hc, ha, hacc, h1, h2, h3]

/-- Witness for the amended C3: empty authorization keys on a concrete
environment yield `AuthorizationError` with no executor call. -/
theorem deploy_authorization_failures_witness :
    deploy (testEnv 0 0 emptyOkResult emptyOkResult emptyOkResult) ⟨true⟩
        testSession testPayment (Key.account (r32 1)) [] []
      = (.ok (ExecutionResult.precondition_failure Error.authorizationError), []) :=
  (deploy_authorization_failures (testEnv 0 0 emptyOkResult emptyOkResult emptyOkResult)
    ⟨true⟩ testSession testPayment (Key.account (r32 1)) [] [] (r32 1) testAccount
    rfl rfl rfl).1 (by decide)

/-- C9: with `use_payment_code` off, `deploy` skips the whole payment
machinery and performs exactly one executor call — the session module in
phase `Session` with gas limit `DEFAULT_SESSION_MOTES / CONV_RATE`
(100,000,000 gas) — returning that session result directly. -/
theorem deploy_no_payment_code_runs_session_only
    (env : DeployEnv) (config : EngineConfig)
    (session payment : ExecutableDeployItem) (address : Key)
    (keys : List Addr) (ph : Bytes) (a : Addr) (account : Account)
    (hc : env.checkout ph = .ok (some ()))
    (ha : address.as_account = some a)
    (hacc : env.getAccount a = .ok account)
    (hne : keys.isEmpty = false)
    (hau : account.can_authorize keys = true)
    (hdw : account.can_deploy_with keys = true)
    (hm : get_module env session account = .ok ())
    (hpc : config.use_payment_code = false) :
    deploy env config session payment address keys ph
      = (.ok (env.exec
          { isDirect := false, args := .bytes session.args, baseKey := address,
            callerAddr := account.address,
            gasLimit := gasFromMotes DEFAULT_SESSION_MOTES CONV_RATE,
            phase := .session }),
        [{ isDirect := false, args := .bytes session.args, baseKey := address,
           callerAddr := account.address,
           gasLimit := gasFromMotes DEFAULT_SESSION_MOTES CONV_RATE,
           phase := .session }])
    ∧ gasFromMotes DEFAULT_SESSION_MOTES CONV_RATE = 100000000 := by
  refine ⟨?_, rfl⟩
  simp [deploy, hc, ha, hacc, hne, hau, hdw, hm, hpc]

/-- Witness for C9 on a concrete environment with payment code disabled. -/
theorem deploy_no_payment_code_runs_session_only_witness :
    deploy (testEnv 0 0 emptyOkResult ⟨[], 7, none⟩ emptyOkResult) ⟨false⟩
        testSession testPayment (Key.account (r32 1)) [r32 1] []
      = (.ok ((testEnv 0 0 emptyOkResult ⟨[], 7, none⟩ emptyOkResult).exec
          { isDirect := false, args := .bytes testSession.args,
            baseKey := Key.account (r32 1), callerAddr := testAccount.address,
            gasLimit := gasFromMotes DEFAULT_SESSION_MOTES CONV_RATE,
            phase := .session }),
        [{ isDirect := false, args := .bytes testSession.args,
           baseKey := Key.account (r32 1), callerAddr := testAccount.address,
           gasLimit := gasFromMotes DEFAULT_SESSION_MOTES CONV_RATE,
           phase := .session }])
    ∧ gasFromMotes DEFAULT_SESSION_MOTES CONV_RATE = 100000000 :=
  deploy_no_payment_code_runs_session_only
    (testEnv 0 0 emptyOkResult ⟨[], 7, none⟩ emptyOkResult) ⟨false⟩
    testSession testPayment (Key.account (r32 1)) [r32 1] [] (r32 1) testAccount
    rfl rfl rfl rfl (by decide) (by decide) rfl rfl

/-- C7: once the pipeline reads the caller's main-purse balance and it is
strictly below `MAX_PAYMENT`, `deploy` returns a precondition failure with
`InsufficientPaymentError` and makes no executor call at all, so no payment
code runs and no effects are produced. -/
theorem deploy_insufficient_balance_precondition_failure
    (env : DeployEnv) (config : EngineConfig)
    (session payment : ExecutableDeployItem) (address : Key)
    (keys : List Addr) (ph : Bytes) (a : Addr) (account : Account)
    (mintKey : Key) (mintInfo : SystemContractInfo)
    (posKey : Key) (posInfo : SystemContractInfo)
    (rewardsKey : Key) (rbk abk : Key) (bal : Nat)
    (hc : env.checkout ph = .ok (some ()))
    (ha : address.as_account = some a)
    (hacc : env.getAccount a = .ok account)
    (hne : keys.isEmpty = false)
    (hau : account.can_authorize keys = true)
    (hdw : account.can_deploy_with keys = true)
    (hm : get_module env session account = .ok ())
    (hpc : config.use_payment_code = true)
    (hmk : account.urefs_lookup MINT_NAME = some mintKey)
    (hmi : env.getSystemContractInfo mintKey.normalize = .ok mintInfo)
    (hpk : account.urefs_lookup POS_NAME = some posKey)
    (hpi : env.getSystemContractInfo posKey.normalize = .ok posInfo)
    (hrk : posInfo.contractKnownKeys.lookup POS_REWARDS_PURSE = some rewardsKey)
    (hrbk : env.getPurseBalanceKey mintInfo.innerKey rewardsKey = .ok rbk)
    (habk : env.getPurseBalanceKey mintInfo.innerKey (Key.uref account.mainPurse) = .ok abk)
    (hbal : env.getPurseBalance abk = .ok bal)
    (hlt : bal < MAX_PAYMENT) :
    deploy env config session payment address keys ph
      = (.ok (ExecutionResult.precondition_failure Error.insufficientPaymentError), []) := by
  simp [deploy, hc, ha, hacc, hne, hau, hdw, hm, hpc, hmk, hmi, hpk, hpi, hrk,
    hrbk, habk, hbal, hlt]

/-- Witness for C7: a concrete account balance of 5,000,000 motes is below
`MAX_PAYMENT` and the deploy fails before any execution. -/
theorem deploy_insufficient_balance_precondition_failure_witness :
    deploy (testEnv 5000000 0 emptyOkResult emptyOkResult emptyOkResult) ⟨true⟩
        testSession testPayment (Key.account (r32 1)) [r32 1] []
      = (.ok (ExecutionResult.precondition_failure Error.insufficientPaymentError), []) :=
  deploy_insufficient_balance_precondition_failure
    (testEnv 5000000 0 emptyOkResult emptyOkResult emptyOkResult) ⟨true⟩
    testSession testPayment (Key.account (r32 1)) [r32 1] [] (r32 1) testAccount
    (Key.uref ⟨r32 2, some AccessRights.READ⟩) testMintInfo
    (Key.uref ⟨r32 3, some AccessRights.READ⟩) testPosInfo
    (Key.uref ⟨r32 7, none⟩) testRewardsBalanceKey testAccountBalanceKey 5000000
    rfl rfl rfl rfl (by decide) (by decide) rfl rfl rfl rfl rfl rfl rfl rfl rfl rfl
    (by decide)

/-- When payment failed or the payment-purse balance is below the payment
cost in motes or below the maximum payment, the forced transfer fires with
exactly the two balance-key transforms, the error flag and cost
`MAX_PAYMENT`. -/
lemma check_forced_transfer_fires (pr : ExecutionResult) (mp bal P : Nat)
    (abk rbk : Key)
    (h : pr.is_failure = true ∨ P < pr.cost * CONV_RATE ∨ P < mp) :
    check_forced_transfer pr mp bal P abk rbk
      = some ⟨[(abk, Transform.addU512 (-(mp : Int))),
               (rbk, Transform.addU512 ((mp : Int)))],
              mp, some Error.insufficientPaymentError⟩ := by
  have hcond : (pr.is_failure || decide (P < pr.cost * CONV_RATE)
      || decide (P < mp)) = true := by
    rcases h with h | h | h <;> simp [h]
  simp [check_forced_transfer, hcond]

/-- When the forced transfer does not fire, payment succeeded and the
payment-purse balance covers both `MAX_PAYMENT` and the payment cost in
motes. -/
lemma check_forced_transfer_none (pr : ExecutionResult) (mp bal P : Nat)
    (abk rbk : Key)
    (h : check_forced_transfer pr mp bal P abk rbk = none) :
    pr.is_failure = false ∧ pr.cost * CONV_RATE ≤ P ∧ mp ≤ P := by
  by_cases hcond : (pr.is_failure || decide (P < pr.cost * CONV_RATE)
      || decide (P < mp)) = true
  · simp [check_forced_transfer, hcond] at h
  · simp only [Bool.or_eq_true, decide_eq_true_eq, not_or] at hcond
    obtain ⟨⟨h1, h2⟩, h3⟩ := hcond
    exact ⟨Bool.not_eq_true _ ▸ (Bool.eq_false_iff.mpr h1),
      Nat.le_of_not_lt h2, Nat.le_of_not_lt h3⟩

/-- C1: if the pipeline reaches the forced-transfer check and the payment
phase failed, or the payment-purse balance `P` is below `cost · CONV_RATE`
or below `MAX_PAYMENT`, `deploy` returns a result whose only effects are
`AddU512(-MAX_PAYMENT)` on the account main-purse balance key and
`AddU512(+MAX_PAYMENT)` on the rewards-purse balance key, with the error
flag set and cost `MAX_PAYMENT`; the executor log shows the session phase
never ran, so payment transforms are discarded and no session effects
exist. -/
theorem deploy_forced_transfer
    (env : DeployEnv) (config : EngineConfig)
    (session payment : ExecutableDeployItem) (address : Key)
    (keys : List Addr) (ph : Bytes) (a : Addr) (account : Account)
    (mintKey : Key) (mintInfo : SystemContractInfo)
    (posKey : Key) (posInfo : SystemContractInfo)
    (rewardsKey : Key) (rbk abk : Key) (bal : Nat)
    (paymentPurseKey pbk : Key) (P : Nat) (pr : ExecutionResult)
    (hc : env.checkout ph = .ok (some ()))
    (ha : address.as_account = some a)
    (hacc : env.getAccount a = .ok account)
    (hne : keys.isEmpty = false)
    (hau : account.can_authorize keys = true)
    (hdw : account.can_deploy_with keys = true)
    (hm : get_module env session account = .ok ())
    (hpc : config.use_payment_code = true)
    (hmk : account.urefs_lookup MINT_NAME = some mintKey)
    (hmi : env.getSystemContractInfo mintKey.normalize = .ok mintInfo)
    (hpk : account.urefs_lookup POS_NAME = some posKey)
    (hpi : env.getSystemContractInfo posKey.normalize = .ok posInfo)
    (hrk : posInfo.contractKnownKeys.lookup POS_REWARDS_PURSE = some rewardsKey)
    (hrbk : env.getPurseBalanceKey mintInfo.innerKey rewardsKey = .ok rbk)
    (habk : env.getPurseBalanceKey mintInfo.innerKey (Key.uref account.mainPurse) = .ok abk)
    (hbal : env.getPurseBalance abk = .ok bal)
    (hge : MAX_PAYMENT ≤ bal)
    (hpm : get_module env payment account = .ok ())
    (hppk : posInfo.contractKnownKeys.lookup POS_PAYMENT_PURSE = some paymentPurseKey)
    (hpbk : env.getPurseBalanceKey mintInfo.innerKey paymentPurseKey = .ok pbk)
    (hpb : env.getPurseBalance pbk = .ok P)
    (hpr : env.exec
        { isDirect := false, args := .bytes payment.args, baseKey := address,
          callerAddr := account.address,
          gasLimit := gasFromMotes MAX_PAYMENT CONV_RATE,
          phase := .payment } = pr)
    (hfire : pr.is_failure = true ∨ P < pr.cost * CONV_RATE ∨ P < MAX_PAYMENT) :
    deploy env config session payment address keys ph
      = (.ok ⟨[(abk, Transform.addU512 (-(MAX_PAYMENT : Int))),
               (rbk, Transform.addU512 ((MAX_PAYMENT : Int)))],
              MAX_PAYMENT, some Error.insufficientPaymentError⟩,
         [{ isDirect := false, args := .bytes payment.args, baseKey := address,
            callerAddr := account.address,
            gasLimit := gasFromMotes MAX_PAYMENT CONV_RATE,
            phase := .payment }])
      ∧ ∀ c ∈ (deploy env config session payment address keys ph).2,
          c.phase ≠ Phase.session := by
  have hchk := check_forced_transfer_fires pr MAX_PAYMENT bal P abk rbk hfire
  have hmain :
      deploy env config session payment address keys ph
        = (.ok ⟨[(abk, Transform.addU512 (-(MAX_PAYMENT : Int))),
                 (rbk, Transform.addU512 ((MAX_PAYMENT : Int)))],
                MAX_PAYMENT, some Error.insufficientPaymentError⟩,
           [{ isDirect := false, args := .bytes payment.args, baseKey := address,
              callerAddr := account.address,
              gasLimit := gasFromMotes MAX_PAYMENT CONV_RATE,
              phase := .payment }]) := by
    simp [deploy, hc, ha, hacc, hne, hau, hdw, hm, hpc, hmk, hmi, hpk, hpi,
      hrk, hrbk, habk, hbal, Nat.not_lt.mpr hge, hpm, hppk, hpbk, hpb, hpr, hchk]
  refine ⟨hmain, ?_⟩
  rw [hmain]
  intro c hcmem
  simp only [List.mem_singleton] at hcmem
  subst hcmem
  simp

/-- Witness for C1: a failed payment execution on a concrete environment
triggers the forced transfer. -/
theorem deploy_forced_transfer_witness :
    deploy (testEnv 20000000 30000000 ⟨[], 100, some Error.deployError⟩
        ⟨[], 200, none⟩ emptyOkResult) ⟨true⟩
        testSession testPayment (Key.account (r32 1)) [r32 1] []
      = (.ok ⟨[(testAccountBalanceKey, Transform.addU512 (-(MAX_PAYMENT : Int))),
               (testRewardsBalanceKey, Transform.addU512 ((MAX_PAYMENT : Int)))],
              MAX_PAYMENT, some Error.insufficientPaymentError⟩,
         [{ isDirect := false, args := .bytes testPayment.args,
            baseKey := Key.account (r32 1), callerAddr := testAccount.address,
            gasLimit := gasFromMotes MAX_PAYMENT CONV_RATE,
            phase := .payment }])
      ∧ ∀ c ∈ (deploy (testEnv 20000000 30000000 ⟨[], 100, some Error.deployError⟩
            ⟨[], 200, none⟩ emptyOkResult) ⟨true⟩
            testSession testPayment (Key.account (r32 1)) [r32 1] []).2,
          c.phase ≠ Phase.session :=
  deploy_forced_transfer
    (testEnv 20000000 30000000 ⟨[], 100, some Error.deployError⟩
      ⟨[], 200, none⟩ emptyOkResult) ⟨true⟩
    testSession testPayment (Key.account (r32 1)) [r32 1] [] (r32 1) testAccount
    (Key.uref ⟨r32 2, some AccessRights.READ⟩) testMintInfo
    (Key.uref ⟨r32 3, some AccessRights.READ⟩) testPosInfo
    (Key.uref ⟨r32 7, none⟩) testRewardsBalanceKey testAccountBalanceKey 20000000
    (Key.uref ⟨r32 6, none⟩) testPaymentBalanceKey 30000000
    ⟨[], 100, some Error.deployError⟩
    rfl rfl rfl rfl (by decide) (by decide) rfl rfl rfl rfl rfl rfl rfl rfl rfl rfl
    (by decide) rfl rfl rfl rfl rfl (Or.inl rfl)

/-- C5: when the forced transfer does not fire, the session executor call
carries gas limit `P / CONV_RATE − C` (with `C` the payment cost), and the
subtraction cannot underflow because the forced-transfer check guarantees
`C · CONV_RATE ≤ P` and hence `C ≤ P / CONV_RATE`. -/
theorem deploy_session_gas_limit
    (env : DeployEnv) (config : EngineConfig)
    (session payment : ExecutableDeployItem) (address : Key)
    (keys : List Addr) (ph : Bytes) (a : Addr) (account : Account)
    (mintKey : Key) (mintInfo : SystemContractInfo)
    (posKey : Key) (posInfo : SystemContractInfo)
    (rewardsKey : Key) (rbk abk : Key) (bal : Nat)
    (paymentPurseKey pbk : Key) (P : Nat) (pr : ExecutionResult)
    (hc : env.checkout ph = .ok (some ()))
    (ha : address.as_account = some a)
    (hacc : env.getAccount a = .ok account)
    (hne : keys.isEmpty = false)
    (hau : account.can_authorize keys = true)
    (hdw : account.can_deploy_with keys = true)
    (hm : get_module env session account = .ok ())
    (hpc : config.use_payment_code = true)
    (hmk : account.urefs_lookup MINT_NAME = some mintKey)
    (hmi : env.getSystemContractInfo mintKey.normalize = .ok mintInfo)
    (hpk : account.urefs_lookup POS_NAME = some posKey)
    (hpi : env.getSystemContractInfo posKey.normalize = .ok posInfo)
    (hrk : posInfo.contractKnownKeys.lookup POS_REWARDS_PURSE = some rewardsKey)
    (hrbk : env.getPurseBalanceKey mintInfo.innerKey rewardsKey = .ok rbk)
    (habk : env.getPurseBalanceKey mintInfo.innerKey (Key.uref account.mainPurse) = .ok abk)
    (hbal : env.getPurseBalance abk = .ok bal)
    (hge : MAX_PAYMENT ≤ bal)
    (hpm : get_module env payment account = .ok ())
    (hppk : posInfo.contractKnownKeys.lookup POS_PAYMENT_PURSE = some paymentPurseKey)
    (hpbk : env.getPurseBalanceKey mintInfo.innerKey paymentPurseKey = .ok pbk)
    (hpb : env.getPurseBalance pbk = .ok P)
    (hpr : env.exec
        { isDirect := false, args := .bytes payment.args, baseKey := address,
          callerAddr := account.address,
          gasLimit := gasFromMotes MAX_PAYMENT CONV_RATE,
          phase := .payment } = pr)
    (hnone : check_forced_transfer pr MAX_PAYMENT bal P abk rbk = none) :
    pr.cost * CONV_RATE ≤ P
      ∧ pr.cost ≤ gasFromMotes P CONV_RATE
      ∧ (deploy env config session payment address keys ph).2.get? 1
          = some { isDirect := false, args := .bytes session.args,
                   baseKey := address, callerAddr := account.address,
                   gasLimit := gasFromMotes P CONV_RATE - pr.cost,
                   phase := .session } := by
  obtain ⟨hfail, hcov, hmax⟩ := check_forced_transfer_none pr MAX_PAYMENT bal P abk rbk hnone
  refine ⟨hcov, ?_, ?_⟩
  · exact (Nat.le_div_iff_mul_le (by decide : 0 < CONV_RATE)).mpr hcov
  · cases hd : env.deserialize posInfo.moduleBytes with
    | error e =>
        simp [deploy, hc, ha, hacc, hne, hau, hdw, hm, hpc, hmk, hmi, hpk, hpi,
          hrk, hrbk, habk, hbal, Nat.not_lt.mpr hge, hpm, hppk, hpbk, hpb, hpr,
          hnone, hd]
    | ok u =>
        simp [deploy, hc, ha, hacc, hne, hau, hdw, hm, hpc, hmk, hmi, hpk, hpi,
          hrk, hrbk, habk, hbal, Nat.not_lt.mpr hge, hpm, hppk, hpbk, hpb, hpr,
          hnone, hd]

/-- Witness for C5: with a payment-purse balance of 30,000,000 motes and a
payment cost of 100 gas, the session gas limit is 3,000,000 − 100. -/
theorem deploy_session_gas_limit_witness :
    (⟨[], 100, none⟩ : ExecutionResult).cost * CONV_RATE ≤ 30000000
      ∧ (⟨[], 100, none⟩ : ExecutionResult).cost ≤ gasFromMotes 30000000 CONV_RATE
      ∧ (deploy (testEnv 20000000 30000000 ⟨[], 100, none⟩ ⟨[], 200, none⟩ emptyOkResult)
          ⟨true⟩ testSession testPayment (Key.account (r32 1)) [r32 1] []).2.get? 1
          = some { isDirect := false, args := .bytes testSession.args,
                   baseKey := Key.account (r32 1), callerAddr := testAccount.address,
                   gasLimit := gasFromMotes 30000000 CONV_RATE
                     - (⟨[], 100, none⟩ : ExecutionResult).cost,
                   phase := .session } :=
  deploy_session_gas_limit
    (testEnv 20000000 30000000 ⟨[], 100, none⟩ ⟨[], 200, none⟩ emptyOkResult) ⟨true⟩
    testSession testPayment (Key.account (r32 1)) [r32 1] [] (r32 1) testAccount
    (Key.uref ⟨r32 2, some AccessRights.READ⟩) testMintInfo
    (Key.uref ⟨r32 3, some AccessRights.READ⟩) testPosInfo
    (Key.uref ⟨r32 7, none⟩) testRewardsBalanceKey testAccountBalanceKey 20000000
    (Key.uref ⟨r32 6, none⟩) testPaymentBalanceKey 30000000 ⟨[], 100, none⟩
    rfl rfl rfl rfl (by decide) (by decide) rfl rfl rfl rfl rfl rfl rfl rfl rfl rfl
    (by decide) rfl rfl rfl rfl rfl rfl

/-- C6: when the pipeline reaches finalization, the executor log is exactly
payment, session, then a direct (`exec_direct`) finalize call made as the
system account (address 0^32) with gas limit `u64::MAX`, phase
`FinalizePayment`, base key the stored PoS contract's inner URef, and
arguments `("finalize_payment", (payment cost + session cost) · CONV_RATE,
caller public key)`. -/
theorem deploy_finalize_call_shape
    (env : DeployEnv) (config : EngineConfig)
    (session payment : ExecutableDeployItem) (address : Key)
    (keys : List Addr) (ph : Bytes) (a : Addr) (account : Account)
    (mintKey : Key) (mintInfo : SystemContractInfo)
    (posKey : Key) (posInfo : SystemContractInfo)
    (rewardsKey : Key) (rbk abk : Key) (bal : Nat)
    (paymentPurseKey pbk : Key) (P : Nat) (pr sr : ExecutionResult)
    (hc : env.checkout ph = .ok (some ()))
    (ha : address.as_account = some a)
    (hacc : env.getAccount a = .ok account)
    (hne : keys.isEmpty = false)
    (hau : account.can_authorize keys = true)
    (hdw : account.can_deploy_with keys = true)
    (hm : get_module env session account = .ok ())
    (hpc : config.use_payment_code = true)
    (hmk : account.urefs_lookup MINT_NAME = some mintKey)
    (hmi : env.getSystemContractInfo mintKey.normalize = .ok mintInfo)
    (hpk : account.urefs_lookup POS_NAME = some posKey)
    (hpi : env.getSystemContractInfo posKey.normalize = .ok posInfo)
    (hrk : posInfo.contractKnownKeys.lookup POS_REWARDS_PURSE = some rewardsKey)
    (hrbk : env.getPurseBalanceKey mintInfo.innerKey rewardsKey = .ok rbk)
    (habk : env.getPurseBalanceKey mintInfo.innerKey (Key.uref account.mainPurse) = .ok abk)
    (hbal : env.getPurseBalance abk = .ok bal)
    (hge : MAX_PAYMENT ≤ bal)
    (hpm : get_module env payment account = .ok ())
    (hppk : posInfo.contractKnownKeys.lookup POS_PAYMENT_PURSE = some paymentPurseKey)
    (hpbk : env.getPurseBalanceKey mintInfo.innerKey paymentPurseKey = .ok pbk)
    (hpb : env.getPurseBalance pbk = .ok P)
    (hpr : env.exec
        { isDirect := false, args := .bytes payment.args, baseKey := address,
          callerAddr := account.address,
          gasLimit := gasFromMotes MAX_PAYMENT CONV_RATE,
          phase := .payment } = pr)
    (hnone : check_forced_transfer pr MAX_PAYMENT bal P abk rbk = none)
    (hsr : env.exec
        { isDirect := false, args := .bytes session.args, baseKey := address,
          callerAddr := account.address,
          gasLimit := gasFromMotes P CONV_RATE - pr.cost,
          phase := .session } = sr)
    (hds : env.deserialize posInfo.moduleBytes = .ok ()) :
    (deploy env config session payment address keys ph).2
      = [{ isDirect := false, args := .bytes payment.args, baseKey := address,
           callerAddr := account.address,
           gasLimit := gasFromMotes MAX_PAYMENT CONV_RATE,
           phase := .payment },
         { isDirect := false, args := .bytes session.args, baseKey := address,
           callerAddr := account.address,
           gasLimit := gasFromMotes P CONV_RATE - pr.cost,
           phase := .session },
         { isDirect := true,
           args := .tuple3 "finalize_payment" ((pr.cost + sr.cost) * CONV_RATE) a,
           baseKey := Key.uref posInfo.innerKey,
           callerAddr := SYSTEM_ACCOUNT_ADDR, gasLimit := U64_MAX,
           phase := .finalizePayment }] := by
  simp [deploy, hc, ha, hacc, hne, hau, hdw, hm, hpc, hmk, hmi, hpk, hpi,
    hrk, hrbk, habk, hbal, Nat.not_lt.mpr hge, hpm, hppk, hpbk, hpb, hpr,
    hnone, hsr, hds, ExecutionResultBuilder.total_cost]

/-- Witness for C6: the concrete pipeline logs the three calls with the
finalize call as the system account at `u64::MAX` gas for
`(100 + 200) · 10` motes. -/
theorem deploy_finalize_call_shape_witness :
    (deploy (testEnv 20000000 30000000 ⟨[], 100, none⟩ ⟨[], 200, none⟩ emptyOkResult)
        ⟨true⟩ testSession testPayment (Key.account (r32 1)) [r32 1] []).2
      = [{ isDirect := false, args := .bytes testPayment.args,
           baseKey := Key.account (r32 1), callerAddr := testAccount.address,
           gasLimit := gasFromMotes MAX_PAYMENT CONV_RATE,
           phase := .payment },
         { isDirect := false, args := .bytes testSession.args,
           baseKey := Key.account (r32 1), callerAddr := testAccount.address,
           gasLimit := gasFromMotes 30000000 CONV_RATE
             - (⟨[], 100, none⟩ : ExecutionResult).cost,
           phase := .session },
         { isDirect := true,
           args := .tuple3 "finalize_payment"
             (((⟨[], 100, none⟩ : ExecutionResult).cost
               + (⟨[], 200, none⟩ : ExecutionResult).cost) * CONV_RATE) (r32 1),
           baseKey := Key.uref testPosInfo.innerKey,
           callerAddr := SYSTEM_ACCOUNT_ADDR, gasLimit := U64_MAX,
           phase := .finalizePayment }] :=
  deploy_finalize_call_shape
    (testEnv 20000000 30000000 ⟨[], 100, none⟩ ⟨[], 200, none⟩ emptyOkResult) ⟨true⟩
    testSession testPayment (Key.account (r32 1)) [r32 1] [] (r32 1) testAccount
    (Key.uref ⟨r32 2, some AccessRights.READ⟩) testMintInfo
    (Key.uref ⟨r32 3, some AccessRights.READ⟩) testPosInfo
    (Key.uref ⟨r32 7, none⟩) testRewardsBalanceKey testAccountBalanceKey 20000000
    (Key.uref ⟨r32 6, none⟩) testPaymentBalanceKey 30000000
    ⟨[], 100, none⟩ ⟨[], 200, none⟩
    rfl rfl rfl rfl (by decide) (by decide) rfl rfl rfl rfl rfl rfl rfl rfl rfl rfl
    (by decide) rfl rfl rfl rfl rfl rfl rfl rfl

/-- C2: when the session phase fails (and no forced transfer fired, and
finalize succeeds), the final result's transforms are exactly the payment
transforms followed by the finalize transforms — so no key touched only by
the session fork appears — and the reported cost is the payment cost. -/
theorem deploy_session_failure_isolated
    (env : DeployEnv) (config : EngineConfig)
    (session payment : ExecutableDeployItem) (address : Key)
    (keys : List Addr) (ph : Bytes) (a : Addr) (account : Account)
    (mintKey : Key) (mintInfo : SystemContractInfo)
    (posKey : Key) (posInfo : SystemContractInfo)
    (rewardsKey : Key) (rbk abk : Key) (bal : Nat)
    (paymentPurseKey pbk : Key) (P : Nat) (pr sr fr : ExecutionResult)
    (hc : env.checkout ph = .ok (some ()))
    (ha : address.as_account = some a)
    (hacc : env.getAccount a = .ok account)
    (hne : keys.isEmpty = false)
    (hau : account.can_authorize keys = true)
    (hdw : account.can_deploy_with keys = true)
    (hm : get_module env session account = .ok ())
    (hpc : config.use_payment_code = true)
    (hmk : account.urefs_lookup MINT_NAME = some mintKey)
    (hmi : env.getSystemContractInfo mintKey.normalize = .ok mintInfo)
    (hpk : account.urefs_lookup POS_NAME = some posKey)
    (hpi : env.getSystemContractInfo posKey.normalize = .ok posInfo)
    (hrk : posInfo.contractKnownKeys.lookup POS_REWARDS_PURSE = some rewardsKey)
    (hrbk : env.getPurseBalanceKey mintInfo.innerKey rewardsKey = .ok rbk)
    (habk : env.getPurseBalanceKey mintInfo.innerKey (Key.uref account.mainPurse) = .ok abk)
    (hbal : env.getPurseBalance abk = .ok bal)
    (hge : MAX_PAYMENT ≤ bal)
    (hpm : get_module env payment account = .ok ())
    (hppk : posInfo.contractKnownKeys.lookup POS_PAYMENT_PURSE = some paymentPurseKey)
    (hpbk : env.getPurseBalanceKey mintInfo.innerKey paymentPurseKey = .ok pbk)
    (hpb : env.getPurseBalance pbk = .ok P)
    (hpr : env.exec
        { isDirect := false, args := .bytes payment.args, baseKey := address,
          callerAddr := account.address,
          gasLimit := gasFromMotes MAX_PAYMENT CONV_RATE,
          phase := .payment } = pr)
    (hnone : check_forced_transfer pr MAX_PAYMENT bal P abk rbk = none)
    (hsr : env.exec
        { isDirect := false, args := .bytes session.args, baseKey := address,
          callerAddr := account.address,
          gasLimit := gasFromMotes P CONV_RATE - pr.cost,
          phase := .session } = sr)
    (hsfail : sr.is_failure = true)
    (hds : env.deserialize posInfo.moduleBytes = .ok ())
    (hfr : env.exec
        { isDirect := true,
          args := .tuple3 "finalize_payment" ((pr.cost + sr.cost) * CONV_RATE) a,
          baseKey := Key.uref posInfo.innerKey,
          callerAddr := SYSTEM_ACCOUNT_ADDR, gasLimit := U64_MAX,
          phase := .finalizePayment } = fr)
    (hfok : fr.is_failure = false) :
    (deploy env config session payment address keys ph).1
      = .ok ⟨pr.transforms ++ fr.transforms, pr.cost, sr.error⟩
      ∧ ∀ k t, (k, t) ∈ pr.transforms ++ fr.transforms →
          (∃ t2, (k, t2) ∈ pr.transforms) ∨ (∃ t2, (k, t2) ∈ fr.transforms) := by
  constructor
  · simp [deploy, hc, ha, hacc, hne, hau, hdw, hm, hpc, hmk, hmi, hpk, hpi,
      hrk, hrbk, habk, hbal, Nat.not_lt.mpr hge, hpm, hppk, hpbk, hpb, hpr,
      hnone, hsr, hds, ExecutionResultBuilder.total_cost, hfr,
      ExecutionResultBuilder.build, hsfail, hfok]
  · intro k t hmem
    exact (List.mem_append.mp hmem).imp (fun h => ⟨t, h⟩) (fun h => ⟨t, h⟩)

/-- Witness for C2: a failing session on a concrete environment leaves only
the payment and finalize transforms, at payment cost. -/
theorem deploy_session_failure_isolated_witness :
    (deploy (testEnv 20000000 30000000
          ⟨[(Key.hash (r32 21), Transform.addU512 5)], 100, none⟩
          ⟨[(Key.hash (r32 22), Transform.addU512 6)], 200, some Error.deployError⟩
          ⟨[(Key.hash (r32 23), Transform.addU512 7)], 0, none⟩)
        ⟨true⟩ testSession testPayment (Key.account (r32 1)) [r32 1] []).1
      = .ok ⟨[(Key.hash (r32 21), Transform.addU512 5)]
              ++ [(Key.hash (r32 23), Transform.addU512 7)],
             100, some Error.deployError⟩
      ∧ ∀ k t, (k, t) ∈ [(Key.hash (r32 21), Transform.addU512 5)]
            ++ [(Key.hash (r32 23), Transform.addU512 7)] →
          (∃ t2, (k, t2) ∈ [(Key.hash (r32 21), Transform.addU512 (5 : Int))])
            ∨ (∃ t2, (k, t2) ∈ [(Key.hash (r32 23), Transform.addU512 (7 : Int))]) :=
  deploy_session_failure_isolated
    (testEnv 20000000 30000000
      ⟨[(Key.hash (r32 21), Transform.addU512 5)], 100, none⟩
      ⟨[(Key.hash (r32 22), Transform.addU512 6)], 200, some Error.deployError⟩
      ⟨[(Key.hash (r32 23), Transform.addU512 7)], 0, none⟩) ⟨true⟩
    testSession testPayment (Key.account (r32 1)) [r32 1] [] (r32 1) testAccount
    (Key.uref ⟨r32 2, some AccessRights.READ⟩) testMintInfo
    (Key.uref ⟨r32 3, some AccessRights.READ⟩) testPosInfo
    (Key.uref ⟨r32 7, none⟩) testRewardsBalanceKey testAccountBalanceKey 20000000
    (Key.uref ⟨r32 6, none⟩) testPaymentBalanceKey 30000000
    ⟨[(Key.hash (r32 21), Transform.addU512 5)], 100, none⟩
    ⟨[(Key.hash (r32 22), Transform.addU512 6)], 200, some Error.deployError⟩
    ⟨[(Key.hash (r32 23), Transform.addU512 7)], 0, none⟩
    rfl rfl rfl rfl (by decide) (by decide) rfl rfl rfl rfl rfl rfl rfl rfl rfl rfl
    (by decide) rfl rfl rfl rfl rfl rfl rfl rfl rfl rfl rfl

def testGenesisEnv : GenesisEnv :=
  { blake2b := fun b => 0 :: b,
    emptyRoot := [0],
    putProtocolData := fun _ _ => .ok (),
    checkout := fun _ => .ok (some ()),
    preprocess := fun _ => .ok (),
    deserialize := fun _ => .ok (),
    getContract := fun _ => .ok [3],
    better_exec := fun c =>
      .ok (Value.uref ⟨r32 30, some AccessRights.READ_ADD_WRITE⟩,
           [(Key.hash c.deployHash, Transform.addU512 1)]),
    commit := fun root _ => .ok (CommitResult.success (1 :: root)) }

def testGenesisConfig : GenesisConfig :=
  { name := "casperlabs", timestamp := 42, protocolVersion := 1,
    wasmCostsBytes := [1, 2], mintInstallerBytes := [3], posInstallerBytes := [4],
    accounts := [⟨r32 8, 1000, 5⟩] }

/-- C4: genesis is deterministic — two invocations against the same state
provider with configs that agree on name, timestamp, protocol version,
serialized wasm costs, installer bytes and accounts produce equal results
(hence equal post-state root hashes) — and the install deploy hash is
exactly Blake2b of the name bytes, the little-endian timestamp and the
serialized wasm costs, concatenated in that order. -/
theorem commit_genesis_with_chainspec_deterministic
    (env : GenesisEnv) (c1 c2 : GenesisConfig)
    (hname : c1.name = c2.name) (hts : c1.timestamp = c2.timestamp)
    (hpv : c1.protocolVersion = c2.protocolVersion)
    (hwc : c1.wasmCostsBytes = c2.wasmCostsBytes)
    (hmint : c1.mintInstallerBytes = c2.mintInstallerBytes)
    (hpos : c1.posInstallerBytes = c2.posInstallerBytes)
    (haccs : c1.accounts = c2.accounts) :
    commit_genesis_with_chainspec env c1 = commit_genesis_with_chainspec env c2
      ∧ install_deploy_hash env c1
          = env.blake2b (stringBytes c1.name ++ u64ToLeBytes c1.timestamp
              ++ c1.wasmCostsBytes) := by
  have hcfg : c1 = c2 := by
    cases c1; cases c2; simp_all
  subst hcfg
  exact ⟨rfl, rfl⟩

/-- Witness for C4 on a concrete genesis environment and config. -/
theorem commit_genesis_with_chainspec_deterministic_witness :
    commit_genesis_with_chainspec testGenesisEnv testGenesisConfig
        = commit_genesis_with_chainspec testGenesisEnv testGenesisConfig
      ∧ install_deploy_hash testGenesisEnv testGenesisConfig
          = testGenesisEnv.blake2b (stringBytes testGenesisConfig.name
              ++ u64ToLeBytes testGenesisConfig.timestamp
              ++ testGenesisConfig.wasmCostsBytes) :=
  commit_genesis_with_chainspec_deterministic testGenesisEnv
    testGenesisConfig testGenesisConfig rfl rfl rfl rfl rfl rfl rfl

end CasperLabs
